import Mathlib

/-!
Shallow embedding of `custom_components/netatmo/sensor.py`: the value
classifiers (`process_angle`, `process_battery`, `process_health`,
`process_rf`, `process_wifi`), the device-bound sensor refresh
(`NetatmoSensor.async_update_callback`) and the area-bound public sensor
refresh (`NetatmoPublicSensor.async_update_callback`).

Numbers are modelled as rationals (`ℚ`) for readings and integers (`ℤ`)
for the discrete fields (angles, signal strengths, battery millivolts,
health index).  Python's `round(x, 1)` is modelled as round-half-to-even
on rationals.  A Python `dict` field lookup that may raise `KeyError`
becomes an `Except Unit` value; the refresh callback catches it, exactly
as the `try/except KeyError` in the source does.
-/

deriving instance DecidableEq for Except

namespace Netatmo

/-- Value held by a device sensor's state: a number, a display string
produced by a classifier, or a boolean (the `reachable` field). -/
inductive StateVal where
  | num (q : ℚ)
  | str (s : String)
  | bool (b : Bool)
  deriving DecidableEq, Repr

/-- Round-half-to-even on rationals, the semantics of Python `round(q)`. -/
def roundHalfEven (q : ℚ) : ℤ :=
  let f : ℤ := Int.floor q
  let r : ℚ := q - f
  if r < 1/2 then f
  else if 1/2 < r then f + 1
  else if f % 2 = 0 then f else f + 1

/-- Python `round(q, 1)`. -/
def pyRound1 (q : ℚ) : ℚ := (roundHalfEven (q * 10) : ℚ) / 10

/-- One battery profile: the four voltage thresholds of `BATTERY_VALUES`. -/
structure BatteryProfile where
  full : ℤ
  high : ℤ
  medium : ℤ
  low : ℤ
  deriving DecidableEq, Repr

/-- The `BATTERY_VALUES` table keyed by module model:
`NAModule2` (wind), `NAModule3` (rain), `NAModule4` (indoor),
`NAModule1` (outdoor); any other model has no profile (Python raises
`KeyError` on lookup). -/
def batteryValues (model : String) : Option BatteryProfile :=
  if model = "NAModule2" then some ⟨5590, 5180, 4770, 4360⟩
  else if model = "NAModule3" then some ⟨5500, 5000, 4500, 4000⟩
  else if model = "NAModule4" then some ⟨5500, 5280, 4920, 4560⟩
  else if model = "NAModule1" then some ⟨5500, 5000, 4500, 4000⟩
  else none

/-- The threshold chain of `process_battery` after the profile lookup. -/
def processBatteryWith (values : BatteryProfile) (data : ℤ) : String :=
  if data ≥ values.full then "Full"
  else if data ≥ values.high then "High"
  else if data ≥ values.medium then "Medium"
  else if data ≥ values.low then "Low"
  else "Very Low"

/-- `process_battery(data, model)`: looks up `BATTERY_VALUES[model]`
(`Except.error ()` models the `KeyError` when the model is unknown) and
classifies against the four thresholds, highest first. -/
def process_battery (data : ℤ) (model : String) : Except Unit String :=
  match batteryValues model with
  | none => .error ()
  | some values => .ok (processBatteryWith values data)

/-- `process_angle(angle)`: compass bucketing, embedding the raw angle. -/
def process_angle (angle : ℤ) : String :=
  if angle ≥ 330 then "N (" ++ toString angle ++ "°)"
  else if angle ≥ 300 then "NW (" ++ toString angle ++ "°)"
  else if angle ≥ 240 then "W (" ++ toString angle ++ "°)"
  else if angle ≥ 210 then "SW (" ++ toString angle ++ "°)"
  else if angle ≥ 150 then "S (" ++ toString angle ++ "°)"
  else if angle ≥ 120 then "SE (" ++ toString angle ++ "°)"
  else if angle ≥ 60 then "E (" ++ toString angle ++ "°)"
  else if angle ≥ 30 then "NE (" ++ toString angle ++ "°)"
  else "N (" ++ toString angle ++ "°)"

/-- The bare compass label of `process_angle`, for stating theorems. -/
def compassLabel (angle : ℤ) : String :=
  if angle ≥ 330 then "N"
  else if angle ≥ 300 then "NW"
  else if angle ≥ 240 then "W"
  else if angle ≥ 210 then "SW"
  else if angle ≥ 150 then "S"
  else if angle ≥ 120 then "SE"
  else if angle ≥ 60 then "E"
  else if angle ≥ 30 then "NE"
  else "N"

/-- `process_health(health)`: the exact map on 0..4; any other input
falls through every branch, so Python returns `None`. -/
def process_health (health : ℤ) : Option String :=
  if health = 0 then some "Healthy"
  else if health = 1 then some "Fine"
  else if health = 2 then some "Fair"
  else if health = 3 then some "Poor"
  else if health = 4 then some "Unhealthy"
  else none

/-- `process_rf(strength)`. -/
def process_rf (strength : ℤ) : String :=
  if strength ≥ 90 then "Low"
  else if strength ≥ 76 then "Medium"
  else if strength ≥ 60 then "High"
  else "Full"

/-- `process_wifi(strength)`. -/
def process_wifi (strength : ℤ) : String :=
  if strength ≥ 86 then "Low"
  else if strength ≥ 71 then "Medium"
  else if strength ≥ 56 then "High"
  else "Full"

/-- The sensor-type keys of `SENSOR_TYPES` that the device-sensor update
callback dispatches on. -/
inductive SensorType where
  | temperature
  | humidity
  | rain
  | sum_rain_1
  | sum_rain_24
  | noise
  | co2
  | pressure
  | battery_percent
  | battery_lvl
  | battery_vp
  | min_temp
  | max_temp
  | windangle_value
  | windangle
  | windstrength
  | gustangle_value
  | gustangle
  | guststrength
  | reachable
  | rf_status_lvl
  | rf_status
  | wifi_status_lvl
  | wifi_status
  | health_idx
  deriving DecidableEq, Repr

/-- One module's record inside the `get_last_data` snapshot: every field
the update callback may read, each `Option` because the Python `dict`
may lack the key (reading an absent key raises `KeyError`). -/
structure ModuleData where
  Temperature : Option ℚ := none
  Humidity : Option ℚ := none
  Rain : Option ℚ := none
  sum_rain_1 : Option ℚ := none
  sum_rain_24 : Option ℚ := none
  Noise : Option ℚ := none
  CO2 : Option ℚ := none
  Pressure : Option ℚ := none
  battery_percent : Option ℚ := none
  battery_vp : Option ℤ := none
  min_temp : Option ℚ := none
  max_temp : Option ℚ := none
  WindAngle : Option ℤ := none
  WindStrength : Option ℚ := none
  GustAngle : Option ℤ := none
  GustStrength : Option ℚ := none
  reachable : Option Bool := none
  rf_status : Option ℤ := none
  wifi_status : Option ℤ := none
  health_idx : Option ℤ := none
  deriving DecidableEq, Repr

/-- The per-station table `get_last_data(station_id, exclude=3600)`
returns: module id to module record. -/
def Snapshot := List (String × ModuleData)

/-- Python `data[key]` on an optional numeric field: `KeyError` when the
key is absent, otherwise the value as the new state. -/
def getNum (f : Option ℚ) : Except Unit (Option StateVal) :=
  match f with
  | none => .error ()
  | some q => .ok (some (.num q))

/-- Same as `getNum` for an integer-valued field. -/
def getInt (f : Option ℤ) : Except Unit (Option StateVal) :=
  match f with
  | none => .error ()
  | some z => .ok (some (.num (z : ℚ)))

/-- The `try` block of `NetatmoSensor.async_update_callback`: the long
`elif` chain on `self.type`, one branch per sensor-type key, reading the
module record's field and applying the per-type transform.  `Except.error`
is a raised `KeyError` (absent field, or unknown battery model inside
`process_battery`); `Except.ok none` is Python assigning `None` to the
state (only `process_health` can produce it). -/
def extract (t : SensorType) (model : String) (data : ModuleData) :
    Except Unit (Option StateVal) :=
  match t with
  | .temperature =>
    match data.Temperature with
    | none => .error ()
    | some q => .ok (some (.num (pyRound1 q)))
  | .humidity => getNum data.Humidity
  | .rain => getNum data.Rain
  | .sum_rain_1 =>
    match data.sum_rain_1 with
    | none => .error ()
    | some q => .ok (some (.num (pyRound1 q)))
  | .sum_rain_24 => getNum data.sum_rain_24
  | .noise => getNum data.Noise
  | .co2 => getNum data.CO2
  | .pressure =>
    match data.Pressure with
    | none => .error ()
    | some q => .ok (some (.num (pyRound1 q)))
  | .battery_percent => getNum data.battery_percent
  | .battery_lvl => getInt data.battery_vp
  | .battery_vp =>
    match data.battery_vp with
    | none => .error ()
    | some v =>
      match process_battery v model with
      | .error () => .error ()
      | .ok s => .ok (some (.str s))
  | .min_temp => getNum data.min_temp
  | .max_temp => getNum data.max_temp
  | .windangle_value => getInt data.WindAngle
  | .windangle =>
    match data.WindAngle with
    | none => .error ()
    | some a => .ok (some (.str (process_angle a)))
  | .windstrength => getNum data.WindStrength
  | .gustangle_value => getInt data.GustAngle
  | .gustangle =>
    match data.GustAngle with
    | none => .error ()
    | some a => .ok (some (.str (process_angle a)))
  | .guststrength => getNum data.GustStrength
  | .reachable =>
    match data.reachable with
    | none => .error ()
    | some b => .ok (some (.bool b))
  | .rf_status_lvl => getInt data.rf_status
  | .rf_status =>
    match data.rf_status with
    | none => .error ()
    | some s => .ok (some (.str (process_rf s)))
  | .wifi_status_lvl => getInt data.wifi_status
  | .wifi_status =>
    match data.wifi_status with
    | none => .error ()
    | some s => .ok (some (.str (process_wifi s)))
  | .health_idx =>
    match data.health_idx with
    | none => .error ()
    | some h => .ok ((process_health h).map .str)

/-- `NetatmoSensor.async_update_callback`, as a state transformer on
`self._state`.  `snapshot = none` models `self._data is None` (the state
becomes `none`, whether or not it already was); a failed id lookup models
`get_last_data(...).get(self._id)` returning `None`; a `KeyError` from the
`try` block is caught and the state set to `none`; otherwise the state is
whatever the branch assigned (Python `None` for an out-of-range health
index). -/
def NetatmoSensor.async_update_callback (t : SensorType) (model : String)
    (_state : Option StateVal) (snapshot : Option Snapshot) (id : String) :
    Option StateVal :=
  match snapshot with
  | none => none
  | some snap =>
    match List.lookup id snap with
    | none => none
    | some data =>
      match extract t model data with
      | .error () => none
      | .ok v => v

/-- The station-id-to-reading mapping one of the eight public accessors
(`get_latest_temperatures`, ..., `get_latest_gust_strengths`) returns; a
reading may be Python `None`. -/
def AreaData := List (String × Option ℚ)

/-- Python `max(values)`: `none` models the `ValueError` on an empty list. -/
def pyMax (l : List ℚ) : Option ℚ :=
  match l with
  | [] => none
  | x :: xs => some (xs.foldl max x)

/-- `NetatmoPublicSensor.async_update_callback`, as a state transformer on
`self._state`.  `dat = none` covers both `self._data is None` and an
accessor returning `None`; the empty mapping is falsy in Python, so both
take the `if not data` path and clear the state.  Otherwise the `None`
readings are filtered out and the remaining values aggregated:
`sum(values) / len(values)` raises `ZeroDivisionError` and `max(values)`
raises `ValueError` when `values` is empty — modelled as `Except.error`
with the Python exception's name.  A mode other than `avg`/`max` leaves
the state unchanged. -/
def NetatmoPublicSensor.async_update_callback (mode : String)
    (state : Option ℚ) (dat : Option AreaData) : Except String (Option ℚ) :=
  match dat with
  | none => .ok none
  | some l =>
    if l.isEmpty then .ok none
    else
      let values := l.filterMap Prod.snd
      if mode = "avg" then
        if values.length = 0 then .error "ZeroDivisionError"
        else .ok (some (pyRound1 (values.sum / (values.length : ℚ))))
      else if mode = "max" then
        match pyMax values with
        | none => .error "ValueError"
        | some m => .ok (some m)
      else .ok state

/-- C7: `process_health` implements the exact map
{0: Healthy, 1: Fine, 2: Fair, 3: Poor, 4: Unhealthy} on 0..4. -/
theorem C7_process_health_exact_map :
    process_health 0 = some "Healthy" ∧ process_health 1 = some "Fine" ∧
    process_health 2 = some "Fair" ∧ process_health 3 = some "Poor" ∧
    process_health 4 = some "Unhealthy" := by
  decide

/-- C5: `process_rf` buckets strength at 90/76/60 into
Low/Medium/High/Full and `process_wifi` at 86/71/56; the spec's concrete
values hold, and the two functions differ (at strength 88). -/
theorem C5_rf_wifi_classification :
    (∀ s : ℤ,
      (90 ≤ s → process_rf s = "Low") ∧
      (76 ≤ s ∧ s < 90 → process_rf s = "Medium") ∧
      (60 ≤ s ∧ s < 76 → process_rf s = "High") ∧
      (s < 60 → process_rf s = "Full") ∧
      (86 ≤ s → process_wifi s = "Low") ∧
      (71 ≤ s ∧ s < 86 → process_wifi s = "Medium") ∧
      (56 ≤ s ∧ s < 71 → process_wifi s = "High") ∧
      (s < 56 → process_wifi s = "Full")) ∧
    process_rf 91 = "Low" ∧ process_rf 76 = "Medium" ∧
    process_rf 60 = "High" ∧ process_rf 10 = "Full" ∧
    process_wifi 90 = "Low" ∧ process_wifi 71 = "Medium" ∧
    process_wifi 56 = "High" ∧ process_wifi 0 = "Full" ∧
    process_rf 88 ≠ process_wifi 88 := by
  refine ⟨fun s => ?_, by decide⟩
  unfold process_rf process_wifi
  split_ifs <;> refine ⟨?_, ?_, ?_, ?_, ?_, ?_, ?_, ?_⟩ <;>
    first
      | (intro h; rfl)
      | (intro h; omega)

/-- C5 witness: the universally quantified part of
`C5_rf_wifi_classification` applied at strength 100. -/
theorem C5_rf_wifi_classification_witness :
    process_rf 100 = "Low" ∧ process_wifi 100 = "Low" :=
  ⟨(C5_rf_wifi_classification.1 100).1 (by decide),
   ((C5_rf_wifi_classification.1 100).2.2.2.2.1 (by decide))⟩

/-- C4: every model with a battery profile has strictly decreasing
thresholds Full > High > Medium > Low; `process_battery` compares
high-to-low with inclusive lower bounds, returning the first label whose
threshold the value meets, and anything below all four is "Very Low";
`process_battery 5590 NAModule1 = Full` and
`process_battery 3999 NAModule1 = Very Low`. -/
theorem C4_battery_thresholds :
    (∀ model p, batteryValues model = some p →
      p.low < p.medium ∧ p.medium < p.high ∧ p.high < p.full ∧
      ∀ v : ℤ,
        process_battery v model = .ok (processBatteryWith p v) ∧
        (p.full ≤ v → processBatteryWith p v = "Full") ∧
        (p.high ≤ v ∧ v < p.full → processBatteryWith p v = "High") ∧
        (p.medium ≤ v ∧ v < p.high → processBatteryWith p v = "Medium") ∧
        (p.low ≤ v ∧ v < p.medium → processBatteryWith p v = "Low") ∧
        (v < p.low → processBatteryWith p v = "Very Low")) ∧
    process_battery 5590 "NAModule1" = .ok "Full" ∧
    process_battery 3999 "NAModule1" = .ok "Very Low" := by
  refine ⟨fun model p hp => ?_, by rfl, by rfl⟩
  have hq : p.low < p.medium ∧ p.medium < p.high ∧ p.high < p.full ∧
      process_battery = process_battery := by
    unfold batteryValues at hp
    split_ifs at hp <;> cases hp <;> exact ⟨by decide, by decide, by decide, rfl⟩
  refine ⟨hq.1, hq.2.1, hq.2.2.1, fun v => ?_⟩
  have hcall : process_battery v model = .ok (processBatteryWith p v) := by
    unfold process_battery
    rw [hp]
  refine ⟨hcall, ?_, ?_, ?_, ?_, ?_⟩ <;>
    (intro h; unfold processBatteryWith; split_ifs <;> first | rfl | omega)

/-- C4 witness: `C4_battery_thresholds` applied to the wind-gauge profile
(`NAModule2`) at 5000 mV, which classifies as "Medium". -/
theorem C4_battery_thresholds_witness :
    process_battery 5000 "NAModule2" =
      .ok (processBatteryWith ⟨5590, 5180, 4770, 4360⟩ 5000) ∧
    processBatteryWith ⟨5590, 5180, 4770, 4360⟩ 5000 = "Medium" :=
  ⟨((C4_battery_thresholds.1 "NAModule2" ⟨5590, 5180, 4770, 4360⟩ rfl).2.2.2
      5000).1,
   ((C4_battery_thresholds.1 "NAModule2" ⟨5590, 5180, 4770, 4360⟩ rfl).2.2.2
      5000).2.2.2.1 (by decide)⟩

/-- C2 counterexample: `process_angle 329` is the NW label, not the N
label the claim asserts. -/
theorem C2_process_angle_329_counterexample :
    process_angle 329 = "NW (329°)" ∧ process_angle 329 ≠ "N (329°)" := by
  decide

/-- C2 (amended): for every angle 0–359, `process_angle` returns one of
the 8 compass labels with the raw angle embedded; buckets have boundaries
30, 60, 120, 150, 210, 240, 300, 330 with wrap-around, so angles below 30
and at least 330 both map to "N"; 29 maps to "N", 30 to "NE", 329 to "NW"
(not "N"), and 330 to "N". -/
theorem C2_process_angle_buckets :
    (∀ a : ℤ, 0 ≤ a → a < 360 →
      process_angle a = compassLabel a ++ " (" ++ toString a ++ "°)" ∧
      compassLabel a ∈ ["N", "NE", "E", "SE", "S", "SW", "W", "NW"] ∧
      (a < 30 ∨ 330 ≤ a → compassLabel a = "N") ∧
      (30 ≤ a ∧ a < 60 → compassLabel a = "NE") ∧
      (60 ≤ a ∧ a < 120 → compassLabel a = "E") ∧
      (120 ≤ a ∧ a < 150 → compassLabel a = "SE") ∧
      (150 ≤ a ∧ a < 210 → compassLabel a = "S") ∧
      (210 ≤ a ∧ a < 240 → compassLabel a = "SW") ∧
      (240 ≤ a ∧ a < 300 → compassLabel a = "W") ∧
      (300 ≤ a ∧ a < 330 → compassLabel a = "NW")) ∧
    process_angle 29 = "N (29°)" ∧ process_angle 30 = "NE (30°)" ∧
    process_angle 329 = "NW (329°)" ∧ process_angle 330 = "N (330°)" := by
  refine ⟨fun a _ _ => ?_, by decide, by decide, by decide, by decide⟩
  unfold process_angle compassLabel
  split_ifs <;>
    refine ⟨by simp, by simp, ?_, ?_, ?_, ?_, ?_, ?_, ?_, ?_⟩ <;>
      first
        | (intro h; rfl)
        | (intro h; omega)

/-- C2 witness: `C2_process_angle_buckets` applied at angle 100. -/
theorem C2_process_angle_buckets_witness :
    process_angle 100 = compassLabel 100 ++ " (" ++ toString (100 : ℤ) ++ "°)" ∧
    compassLabel 100 = "E" :=
  ⟨(C2_process_angle_buckets.1 100 (by decide) (by decide)).1,
   (C2_process_angle_buckets.1 100 (by decide) (by decide)).2.2.2.2.1
      (by decide)⟩

/-- C9: `process_angle` is total over all integers: it always returns one
of the 8 compass labels with the angle embedded; every input below 30
(negatives included) yields the "N" label, and every input at least 330,
with no upper limit, also yields "N". -/
theorem C9_process_angle_total :
    ∀ a : ℤ,
      process_angle a = compassLabel a ++ " (" ++ toString a ++ "°)" ∧
      compassLabel a ∈ ["N", "NE", "E", "SE", "S", "SW", "W", "NW"] ∧
      (a < 30 → compassLabel a = "N") ∧
      (330 ≤ a → compassLabel a = "N") := by
  intro a
  unfold process_angle compassLabel
  split_ifs <;>
    refine ⟨by simp, by simp, ?_, ?_⟩ <;>
      first
        | (intro h; rfl)
        | (intro h; omega)

/-- C9 witness: `C9_process_angle_total` applied at the negative angle
-45 and at 4000, both classified "N". -/
theorem C9_process_angle_total_witness :
    compassLabel (-45) = "N" ∧ compassLabel 4000 = "N" :=
  ⟨(C9_process_angle_total (-45)).2.2.1 (by decide),
   (C9_process_angle_total 4000).2.2.2 (by decide)⟩

/-- C10: for every integer outside {0,1,2,3,4}, `process_health` falls
through every branch and returns `None`, so a `health_idx` device sensor
whose snapshot holds an out-of-range index becomes unavailable rather
than erroring. -/
theorem C10_health_out_of_range :
    ∀ h : ℤ, h < 0 ∨ 4 < h →
      process_health h = none ∧
      ∀ model old id s d, List.lookup id s = some d →
        d.health_idx = some h →
        NetatmoSensor.async_update_callback .health_idx model old (some s) id
          = none := by
  intro h hh
  have hph : process_health h = none := by
    unfold process_health
    split_ifs <;> first | rfl | omega
  refine ⟨hph, fun model old id s d hl hd => ?_⟩
  simp [NetatmoSensor.async_update_callback, extract, hl, hd, hph]

/-- C10 witness: `C10_health_out_of_range` applied at health index 7 in a
concrete one-module snapshot. -/
theorem C10_health_out_of_range_witness :
    process_health 7 = none ∧
    NetatmoSensor.async_update_callback .health_idx "NHC" (some (.num 0))
      (some [("mod1", { health_idx := some 7 })]) "mod1" = none :=
  ⟨(C10_health_out_of_range 7 (by decide)).1,
   (C10_health_out_of_range 7 (by decide)).2 "NHC" (some (.num 0)) "mod1"
      [("mod1", { health_idx := some 7 })] { health_idx := some 7 }
      (by decide) rfl⟩

/-- C8: a `battery_vp` sensor whose module model has no entry in
`BATTERY_VALUES` and whose `battery_vp` field is present does not raise:
the `KeyError` from the profile lookup inside `process_battery` is caught
by the refresh's handler and the state is set to `none`, just as for a
missing field. -/
theorem C8_unknown_battery_model :
    ∀ model old id s d (v : ℤ), batteryValues model = none →
      List.lookup id s = some d → d.battery_vp = some v →
      extract .battery_vp model d = .error () ∧
      NetatmoSensor.async_update_callback .battery_vp model old (some s) id
        = none := by
  intro model old id s d v hbv hl hd
  have hex : extract .battery_vp model d = .error () := by
    unfold extract process_battery
    rw [hd, hbv]
  refine ⟨hex, ?_⟩
  simp [NetatmoSensor.async_update_callback, hl, hex]

/-- C8 witness: `C8_unknown_battery_model` applied at model "NAMain"
(absent from `BATTERY_VALUES`) with a present 5000 mV reading. -/
theorem C8_unknown_battery_model_witness :
    NetatmoSensor.async_update_callback .battery_vp "NAMain"
      (some (.str "Full"))
      (some [("mod1", { battery_vp := some 5000 })]) "mod1" = none :=
  (C8_unknown_battery_model "NAMain" (some (.str "Full")) "mod1"
      [("mod1", { battery_vp := some 5000 })] { battery_vp := some 5000 }
      5000 rfl (by decide) rfl).2

/-- C6: the device-sensor refresh is idempotent — running it a second
time with the same snapshot leaves the same state — and a refresh with an
absent snapshot, or one in which the module id is missing, sets the state
to `none` (the embedding is a total function: no exception escapes). -/
theorem C6_refresh_idempotent :
    ∀ t model old snap id,
      NetatmoSensor.async_update_callback t model
          (NetatmoSensor.async_update_callback t model old snap id) snap id
        = NetatmoSensor.async_update_callback t model old snap id ∧
      NetatmoSensor.async_update_callback t model old none id = none ∧
      ∀ s, List.lookup id s = none →
        NetatmoSensor.async_update_callback t model old (some s) id = none := by
  intro t model old snap id
  refine ⟨rfl, rfl, fun s hs => ?_⟩
  simp [NetatmoSensor.async_update_callback, hs]

/-- C6 witness: `C6_refresh_idempotent` applied to a temperature sensor
with a concrete snapshot, and to the empty snapshot. -/
theorem C6_refresh_idempotent_witness :
    NetatmoSensor.async_update_callback .temperature "NAMain"
        (NetatmoSensor.async_update_callback .temperature "NAMain" none
          (some [("mod1", { Temperature := some 20 })]) "mod1")
        (some [("mod1", { Temperature := some 20 })]) "mod1"
      = NetatmoSensor.async_update_callback .temperature "NAMain" none
          (some [("mod1", { Temperature := some 20 })]) "mod1" ∧
    NetatmoSensor.async_update_callback .temperature "NAMain" none
        (some ([] : Snapshot)) "mod1" = none :=
  ⟨(C6_refresh_idempotent .temperature "NAMain" none
      (some [("mod1", { Temperature := some 20 })]) "mod1").1,
   (C6_refresh_idempotent .temperature "NAMain" none
      (some ([] : Snapshot)) "mod1").2.2 [] rfl⟩

/-- C3 counterexample: a `health_idx` sensor whose record and field are
both present (health index 5) still ends the refresh with state `none`,
so "record and field present implies state not none" is false. -/
theorem C3_counterexample :
    List.lookup "mod1"
        [("mod1", ({ health_idx := some 5 } : ModuleData))]
      = some ({ health_idx := some 5 } : ModuleData) ∧
    ({ health_idx := some 5 } : ModuleData).health_idx = some 5 ∧
    NetatmoSensor.async_update_callback .health_idx "NHC"
        (some (.str "Healthy"))
        (some [("mod1", { health_idx := some 5 })]) "mod1" = none := by
  refine ⟨by decide, rfl, rfl⟩

/-- C3 (amended): after a refresh the state is non-`none` exactly when
the snapshot was present, the module record was found, and the field
extraction succeeded with a non-`None` value; the extraction yields
`Except.ok none` only for a `health_idx` sensor whose present index is
outside 0..4 — so the spec's iff holds up to that one classifier case. -/
theorem C3_state_none_iff :
    ∀ t model old snap id,
      (NetatmoSensor.async_update_callback t model old snap id ≠ none ↔
        ∃ s d v, snap = some s ∧ List.lookup id s = some d ∧
          extract t model d = .ok (some v)) ∧
      (∀ d : ModuleData, extract t model d = .ok none →
        t = SensorType.health_idx ∧
        ∃ h, d.health_idx = some h ∧ process_health h = none) := by
  intro t model old snap id
  constructor
  · cases snap with
    | none => simp [NetatmoSensor.async_update_callback]
    | some s =>
      cases hl : List.lookup id s with
      | none => simp [NetatmoSensor.async_update_callback, hl]
      | some d =>
        cases he : extract t model d with
        | error e =>
          simp [NetatmoSensor.async_update_callback, hl, he]
        | ok v =>
          cases v with
          | none => simp [NetatmoSensor.async_update_callback, hl, he]
          | some x => simp [NetatmoSensor.async_update_callback, hl, he]
  · intro d he
    cases t <;>
      unfold extract at he <;>
      (try unfold getNum at he) <;>
      (try unfold getInt at he) <;>
      (repeat' split at he) <;>
      simp_all [process_battery]

/-- C3 witness: `C3_state_none_iff` applied to a humidity sensor with a
present record and field: the state is non-none. -/
theorem C3_state_none_iff_witness :
    NetatmoSensor.async_update_callback .humidity "NAMain" none
        (some [("mod1", { Humidity := some 55 })]) "mod1" ≠ none :=
  (C3_state_none_iff .humidity "NAMain" none
      (some [("mod1", { Humidity := some 55 })]) "mod1").1.mpr
    ⟨[("mod1", { Humidity := some 55 })], { Humidity := some 55 },
      .num 55, rfl, by decide, rfl⟩

/-- C1: the area-sensor refresh over readings {a: 10.0, b: 20.0, c: None}
yields 15.0 in "avg" mode and 20.0 in "max" mode; but when the accessor
returns a non-empty mapping whose readings are all `None`, the filtered
list is empty and the code raises `ZeroDivisionError` (avg) or
`ValueError` (max) instead of setting the state to `none`. -/
theorem C1_area_aggregation :
    NetatmoPublicSensor.async_update_callback "avg" none
        (some [("a", some 10), ("b", some 20), ("c", none)]) = .ok (some 15) ∧
    NetatmoPublicSensor.async_update_callback "max" none
        (some [("a", some 10), ("b", some 20), ("c", none)]) = .ok (some 20) ∧
    NetatmoPublicSensor.async_update_callback "avg" none
        (some [("a", none), ("b", none)]) = .error "ZeroDivisionError" ∧
    NetatmoPublicSensor.async_update_callback "max" none
        (some [("a", none), ("b", none)]) = .error "ValueError" := by
  refine ⟨?_, ?_, ?_, ?_⟩
  · norm_num [NetatmoPublicSensor.async_update_callback, List.filterMap,
      pyRound1, roundHalfEven]
  · norm_num [NetatmoPublicSensor.async_update_callback, List.filterMap, pyMax]
    exact fun h => absurd h (by decide)
  · norm_num [NetatmoPublicSensor.async_update_callback, List.filterMap]
  · norm_num [NetatmoPublicSensor.async_update_callback, List.filterMap, pyMax]
    exact fun h => absurd h (by decide)

end Netatmo
